import Mathlib

/-!
Verification of the npy2mat batch converter (ekvll/npy2mat).

The repository converts every `.npy` file of a source directory into a
`.mat` file of a destination directory.  Two implementations live in the
source tree: the package form (`npy2mat/processing.py` with helpers in
`npy2mat/utils.py`) and an older standalone form (`npy2mat.py`, class
`Npy2Mat`).  Both are embedded below.

External effects (the filesystem listing, `numpy.load`, `scipy.io.savemat`)
are modelled by an explicit environment `Env`: the environment fixes, for
each path, what the external call would do there, and the embedded
functions thread an explicit destination filesystem `FS`.  Exceptions are
modelled as `Option`/`Except` values; a Python function that catches every
exception is a total Lean function whose `raised` component is `none`.
Log output is modelled as the list of emitted message strings.
-/

/-- An in-memory numpy array (`numpy.ndarray`): the pipeline is
shape/dtype agnostic and passes the value through unchanged, so the
element data is abstracted as a flat list of integers. -/
structure NpArray where
  data : List Int
deriving DecidableEq, Repr

/-- A Python value flowing from the loader into the saver: either a real
`numpy.ndarray` or `None` (what the loader returns on a failed decode). -/
inductive PyValue
  | ndarray (a : NpArray)
  | pyNone
deriving DecidableEq, Repr

/-- A destination `.mat` file on disk: either a fully written container
holding named entries (the `mdict` given to `scipy.io.savemat`), or a
truncated artifact left behind by a write that failed midway. -/
inductive MatFile
  | full (entries : List (String × PyValue))
  | truncated
deriving DecidableEq, Repr

/-- The destination filesystem: an association of file paths to `.mat`
files; the most recent write of a path shadows earlier ones. -/
abbrev FS := List (String × MatFile)

/-- Write a file: the new entry shadows any previous entry for the path. -/
def fsWrite (fs : FS) (p : String) (m : MatFile) : FS := (p, m) :: fs

/-- Read a file: the most recently written entry for the path, if any. -/
def fsRead (fs : FS) (p : String) : Option MatFile :=
  (fs.find? fun e => e.1 == p).map fun e => e.2

/-- Result of `os.listdir` combined with the `os.path.isfile` test on the
source directory: either the directory's entries, each tagged with whether
it is a regular file, or an access error (missing directory, permission
denied) with its message. -/
inductive DirListing
  | ok (entries : List (String × Bool))
  | err (msg : String)
deriving DecidableEq, Repr

/-- Behaviour of one `scipy.io.savemat` call at a destination path:
success writes the given container in full; a failure (destination not
writable, payload not representable) raises an exception, either after
having created a truncated file or leaving the destination untouched. -/
inductive SavematOutcome
  | ok
  | failTrunc (msg : String)
  | failClean (msg : String)
deriving DecidableEq, Repr

/-- The external world fixed for one batch run: the source-directory
listing, the behaviour of `numpy.load` at each source path (`Except.error`
models the exception raised on a missing/unreadable/malformed file), and
the behaviour of `scipy.io.savemat` at each destination path. -/
structure Env where
  listing : DirListing
  npLoad : String → Except String NpArray
  savemat : String → SavematOutcome

/-- Python `str.endswith`: an exact, case-sensitive suffix match. -/
def pyEndswith (s t : String) : Bool := t.data.isSuffixOf s.data

/-- The fifty-hyphen separator line `"-" * 50` logged between files. -/
def dashes : String := ⟨List.replicate 50 '-'⟩

/-- npy2mat/utils.py `validate_file_type(filename, target_type)`:
`filename.endswith(target_type)`.  Its log lines ("Valid file type" /
"Invalid file type. Jumping to next file...") are emitted at the call
site in `processFile` below. -/
def validate_file_type (filename target_type : String) : Bool :=
  pyEndswith filename target_type

/-- npy2mat.py `Npy2Mat.check_file_type` on a single string argument:
the `isinstance(filename, str)` branch returns `False` when the suffix
does not match, and the trailing `return True` fires otherwise. -/
def check_file_type_str (filename target_type : String) : Bool :=
  pyEndswith filename target_type

/-- npy2mat.py `Npy2Mat.check_file_type` on a list argument: the
`isinstance(filename, list)` branch returns `False` at the first member
whose suffix does not match, and `True` after the loop. -/
def check_file_type_list : List String → String → Bool
  | [], _ => true
  | fn :: rest, t => if pyEndswith fn t then check_file_type_list rest t else false

/-- Index of the last occurrence of a character in a list (Python
`str.rfind`, with `none` for "not found"). -/
def rfindIdx (c : Char) : List Char → Option Nat
  | [] => none
  | x :: xs =>
    match rfindIdx c xs with
    | some i => some (i + 1)
    | none => if x = c then some 0 else none

/-- CPython `posixpath.splitext(p)`: split at the last dot that comes
after the last path separator, unless every character between the
separator and that dot is itself a dot (so a leading-dot name such as
`".npy"` keeps its dot and gets an empty extension). -/
def pySplitext (p : String) : String × String :=
  match rfindIdx '.' p.data with
  | none => (p, "")
  | some d =>
    let start : Nat :=
      match rfindIdx '/' p.data with
      | some s => s + 1
      | none => 0
    if start ≤ d ∧ ((p.data.drop start).take (d - start)).any (fun ch => ch ≠ '.') then
      (⟨p.data.take d⟩, ⟨p.data.drop d⟩)
    else (p, "")

/-- CPython `posixpath.join(a, b)`: `b` wins when absolute; otherwise a
separator is inserted unless `a` is empty or already ends in one. -/
def posixJoin (a b : String) : String :=
  if b.data.head? = some '/' then b
  else if a.data = [] ∨ a.data.getLast? = some '/' then a ++ b
  else a ++ "/" ++ b

/-- npy2mat/processing.py `_gen_filepaths(npy_dir, npy_filename, mat_dir)`:
source path is `join(npy_dir, npy_filename)`; destination path joins
`mat_dir` with the filename's stem plus `".mat"`. -/
def gen_filepaths (npy_dir npy_filename mat_dir : String) : String × String :=
  let npy_filepath := posixJoin npy_dir npy_filename
  let mat_filename := (pySplitext npy_filename).1 ++ ".mat"
  let mat_filepath := posixJoin mat_dir mat_filename
  (npy_filepath, mat_filepath)

/-- The destination path computed inline by npy2mat.py `convert_files`:
`os.path.join(mat_dir, os.path.splitext(npy_file)[0] + ".mat")`. -/
def npy2mat_dest (mat_dir npy_file : String) : String :=
  posixJoin mat_dir ((pySplitext npy_file).1 ++ ".mat")

/-- npy2mat/utils.py `filenames_in_dir(path)`: lists the directory,
keeps only regular files, and returns the empty list on any access
error.  Returns the filename list together with the emitted log lines. -/
def filenames_in_dir (d : DirListing) (path : String) : List String × List String :=
  match d with
  | .ok entries =>
    let fls := (entries.filter fun e => e.2).map fun e => e.1
    (fls, ["Reading files from: " ++ path,
           "Found " ++ toString fls.length ++ " file(s)"])
  | .err m =>
    ([], ["Reading files from: " ++ path,
          "Error reading directory: " ++ m ++ ". Returning empty list"])

/-- Outcome of one `save_data_as_mat`/`save_mat_file` call: the updated
destination filesystem, the emitted log lines, the exception surfaced to
the caller (if any), and whether a full container was written. -/
structure SaveOut where
  fs : FS
  logs : List String
  raised : Option String
  wrote : Bool
deriving DecidableEq, Repr

/-- npy2mat/utils.py `save_data_as_mat(data, filepath)`: when the payload
is a `numpy.ndarray` it calls `scipy.io.savemat(filepath, {"data": data})`
inside a try/except that logs and swallows any failure; a non-array
payload is skipped with a warning.  The call never raises (`raised` is
`none` in every branch) and never removes the destination file. -/
def save_data_as_mat (env : Env) (data : PyValue) (filepath : String) (fs : FS) : SaveOut :=
  match data with
  | .ndarray a =>
    match env.savemat filepath with
    | .ok =>
      ⟨fsWrite fs filepath (.full [("data", .ndarray a)]),
       ["Saving file as .mat file", "Saved successfully"], none, true⟩
    | .failTrunc m =>
      ⟨fsWrite fs filepath .truncated,
       ["Saving file as .mat file", "Error when saving as .mat file: " ++ m], none, false⟩
    | .failClean m =>
      ⟨fs, ["Saving file as .mat file", "Error when saving as .mat file: " ++ m], none, false⟩
  | .pyNone =>
    ⟨fs, ["Data is not a numpy array. Cannot save as .mat file. Jumping to next file..."],
     none, false⟩

/-- Modelled from the spec: the class `NumpyFileLoader` (file
`load_data.py`, imported by `npy2mat/processing.py`) is not present under
src/.  Per the spec the decoder fails with DecodeError on a missing,
unreadable or malformed file, and the pipeline then records DecodeFailed
and advances to the next file; since the caller `process` installs no
exception handler but `save_data_as_mat` explicitly guards for a
non-array value ("Jumping to next file..."), the loader is modelled as
catching the decode failure internally and returning `None`. -/
def NumpyFileLoader_load_file (env : Env) (filepath : String) : Option NpArray :=
  match env.npLoad filepath with
  | .ok a => some a
  | .error _ => none

/-- The spec's per-file terminal outcome vocabulary, used to classify
each branch of the embedded per-file processing. -/
inductive ConversionResult
  | Converted
  | SkippedWrongType
  | DecodeFailed
  | EncodeFailed
deriving DecidableEq, Repr

/-- Outcome of processing one file in `process`: updated destination
filesystem, log lines, and the file's terminal `ConversionResult`. -/
structure StepOut where
  fs : FS
  logs : List String
  result : ConversionResult
deriving DecidableEq, Repr

/-- The body of the per-file loop of npy2mat/processing.py `process`
(everything after the progress log line): validate the extension, derive
the two paths, load the array, and save it.  A wrong extension skips the
file; a failed decode yields `None`, which `save_data_as_mat` then skips
with a warning; a failed save is logged and swallowed.  Each branch is
labelled with the spec's `ConversionResult` kind. -/
def processFile (env : Env) (path_input path_output filename : String) (fs : FS) : StepOut :=
  if validate_file_type filename ".npy" then
    let fps := gen_filepaths path_input filename path_output
    match NumpyFileLoader_load_file env fps.1 with
    | none =>
      let s := save_data_as_mat env .pyNone fps.2 fs
      ⟨s.fs, "Valid file type" :: (s.logs ++ [dashes]), .DecodeFailed⟩
    | some a =>
      let s := save_data_as_mat env (.ndarray a) fps.2 fs
      ⟨s.fs, "Valid file type" :: (s.logs ++ [dashes]),
       if s.wrote then .Converted else .EncodeFailed⟩
  else
    ⟨fs, ["Invalid file type. Jumping to next file...", dashes], .SkippedWrongType⟩

/-- Accumulated outcome of the per-file loop. -/
structure LoopOut where
  fs : FS
  logs : List String
  outcomes : List (String × ConversionResult)
deriving DecidableEq, Repr

/-- The `"Processing file {idx+1}/{total}: {filename}"` progress line. -/
def progressLine (total idx : Nat) (filename : String) : String :=
  "Processing file " ++ toString (idx + 1) ++ "/" ++ toString total ++ ": " ++ filename

/-- The `for idx, filename in enumerate(filenames)` loop of `process`:
each file is handled strictly in listing order, and no iteration raises
(every callee catches its own exceptions), so every listed file is paired
with exactly one terminal `ConversionResult`. -/
def processLoop (env : Env) (path_input path_output : String) (total : Nat) :
    Nat → List String → FS → LoopOut
  | _, [], fs => ⟨fs, [], []⟩
  | idx, f :: rest, fs =>
    let s := processFile env path_input path_output f fs
    let r := processLoop env path_input path_output total (idx + 1) rest s.fs
    ⟨r.fs, (progressLine total idx f :: s.logs) ++ r.logs, (f, s.result) :: r.outcomes⟩

/-- Everything `process` produces.  `ret` mirrors the Python return value
of `process(values)`, which is `None` (`return` type annotation `None`,
no return statement): the per-file outcomes and the summary lines exist
only in the log stream, never in the returned value. -/
structure ProcOut where
  ret : Unit
  fs : FS
  logs : List String
  outcomes : List (String × ConversionResult)

/-- npy2mat/processing.py `process(values)`, the batch entry point: list
the source directory, log the intro lines, run the per-file loop, then
log the outro lines (`"All files processed!"`, `"Files saved to: ..."`,
`"Feel free to close the application"`) and return `None`. -/
def process (env : Env) (path_input path_output : String) (fs0 : FS) : ProcOut :=
  let fl := filenames_in_dir env.listing path_input
  let r := processLoop env path_input path_output fl.1.length 0 fl.1 fs0
  ⟨(), r.fs,
   (fl.2 ++ ["Valid file type is .npy", "Iterating over files...", dashes] ++ r.logs)
     ++ ["All files processed!", "Files saved to: " ++ path_output,
         "Feel free to close the application"],
   r.outcomes⟩

/-- npy2mat.py `Npy2Mat.save_mat_file(data, mat_file)`: calls
`scipy.io.savemat(mat_file, {"data": data})` and re-raises any failure
as `ValueError("Failed to save mat file: ...")` (returned here as the
`Option String` component). -/
def save_mat_file (env : Env) (data : PyValue) (mat_file : String) (fs : FS) :
    FS × Option String :=
  match env.savemat mat_file with
  | .ok => (fsWrite fs mat_file (.full [("data", data)]), none)
  | .failTrunc m => (fsWrite fs mat_file .truncated, some ("Failed to save mat file: " ++ m))
  | .failClean m => (fs, some ("Failed to save mat file: " ++ m))

/-- npy2mat.py `Npy2Mat.load_npy_file(npy_file)`: `np.load` re-raised as
`ValueError("Failed to load npy file: ...")` on failure. -/
def load_npy_file (env : Env) (npy_file : String) : Except String NpArray :=
  match env.npLoad npy_file with
  | .ok a => .ok a
  | .error m => .error ("Failed to load npy file: " ++ m)

/-- Outcome of npy2mat.py `convert_npy_to_mat`: the updated filesystem,
the log lines, and whether the except-branch fired for this file. -/
structure ConvOut where
  fs : FS
  logs : List String
  errored : Bool
deriving DecidableEq, Repr

/-- npy2mat.py `Npy2Mat.convert_npy_to_mat(npy_file, mat_file)`: load
then save inside a try/except that shows a popup and logs the error, so
the call itself never raises — a failure on one file cannot abort the
caller's loop. -/
def convert_npy_to_mat (env : Env) (npy_file mat_file : String) (fs : FS) : ConvOut :=
  match load_npy_file env npy_file with
  | .error m => ⟨fs, ["Error during conversion: " ++ m], true⟩
  | .ok a =>
    match save_mat_file env (.ndarray a) mat_file fs with
    | (fs2, some m) => ⟨fs2, ["Error during conversion: " ++ m], true⟩
    | (fs2, none) => ⟨fs2, ["Converted " ++ npy_file], false⟩

/-- npy2mat.py `Npy2Mat.convert_files(filenames, npy_dir, mat_dir)`: one
`convert_npy_to_mat` call per listed filename, in order.  Returns the
final filesystem and, per file, whether its conversion errored. -/
def convert_files (env : Env) : List String → String → String → FS →
    FS × List (String × Bool)
  | [], _, _, fs => (fs, [])
  | f :: rest, npy_dir, mat_dir, fs =>
    let c := convert_npy_to_mat env (posixJoin npy_dir f) (npy2mat_dest mat_dir f) fs
    let r := convert_files env rest npy_dir mat_dir c.fs
    (r.1, (f, c.errored) :: r.2)

/-! Helper lemmas shared by the claim theorems. -/

/-- Every listed filename is paired, in order, with exactly one terminal
outcome by the per-file loop: the loop never drops or aborts a file. -/
theorem processLoop_names (env : Env) (pIn pOut : String) (tot : Nat) :
    ∀ (files : List String) (idx : Nat) (fs : FS),
      (processLoop env pIn pOut tot idx files fs).outcomes.map Prod.fst = files := by
  intro files
  induction files with
  | nil => intro idx fs; rfl
  | cons f rest ih =>
      intro idx fs
      simp [processLoop, ih]

/-- Every filename given to `convert_files` is paired, in order, with a
per-file error flag: the loop never drops or aborts a file. -/
theorem convert_files_names (env : Env) :
    ∀ (files : List String) (npy_dir mat_dir : String) (fs : FS),
      ((convert_files env files npy_dir mat_dir fs).2).map Prod.fst = files := by
  intro files
  induction files with
  | nil => intro npy_dir mat_dir fs; rfl
  | cons f rest ih =>
      intro npy_dir mat_dir fs
      simp [convert_files, ih]

/-! Claim theorems. -/

/-- C1: a decode failure on one file yields the terminal outcome
DecodeFailed for that file, writes no destination artifact for it, is
independent of the encoder's behaviour (no encoding attempted), and never
aborts the batch: in both pipelines every listed file of any batch is
paired with exactly one terminal per-file outcome, whatever the
environment does. -/
theorem decode_failure_isolated :
    (∀ (env : Env) (pIn pOut : String) (tot idx : Nat) (files : List String) (fs : FS),
       (processLoop env pIn pOut tot idx files fs).outcomes.map Prod.fst = files) ∧
    (∀ (env env2 : Env) (pIn pOut f : String) (fs : FS) (m : String),
       env.npLoad = env2.npLoad →
       validate_file_type f ".npy" = true →
       env.npLoad (posixJoin pIn f) = Except.error m →
       (processFile env pIn pOut f fs).result = ConversionResult.DecodeFailed ∧
       (processFile env pIn pOut f fs).fs = fs ∧
       processFile env pIn pOut f fs = processFile env2 pIn pOut f fs) ∧
    (∀ (env : Env) (files : List String) (npy_dir mat_dir : String) (fs : FS),
       ((convert_files env files npy_dir mat_dir fs).2).map Prod.fst = files) := by
  refine ⟨fun env pIn pOut tot idx files fs => processLoop_names env pIn pOut tot files idx fs,
          ?_, fun env files npy_dir mat_dir fs => convert_files_names env files npy_dir mat_dir fs⟩
  intro env env2 pIn pOut f fs m hload hv herr
  have herr2 : env2.npLoad (posixJoin pIn f) = Except.error m := by rw [← hload]; exact herr
  refine ⟨?_, ?_, ?_⟩ <;>
    simp [processFile, hv, gen_filepaths, NumpyFileLoader_load_file, herr, herr2,
          save_data_as_mat]

/-- An environment whose first listed file has corrupt bytes: decoding
`in/c.npy` fails while `a.npy` decodes and saves fine. -/
def envC1 : Env :=
  ⟨DirListing.ok [("c.npy", true), ("a.npy", true)],
   fun p => if p = "in/c.npy" then Except.error "corrupt header" else Except.ok ⟨[7]⟩,
   fun _ => SavematOutcome.ok⟩

/-- C1 witness: in a two-file batch whose first file fails to decode, that
file ends in DecodeFailed with no artifact, and both files still reach a
terminal outcome. -/
theorem decode_failure_isolated_witness :
    (processFile envC1 "in" "out" "c.npy" []).result = ConversionResult.DecodeFailed ∧
    (processFile envC1 "in" "out" "c.npy" []).fs = [] ∧
    (processLoop envC1 "in" "out" 2 0 ["c.npy", "a.npy"] []).outcomes.map Prod.fst
      = ["c.npy", "a.npy"] := by
  refine ⟨(decode_failure_isolated.2.1 envC1 envC1 "in" "out" "c.npy" [] "corrupt header"
             rfl (by decide) rfl).1,
          (decode_failure_isolated.2.1 envC1 envC1 "in" "out" "c.npy" [] "corrupt header"
             rfl (by decide) rfl).2.1,
          decode_failure_isolated.1 envC1 "in" "out" 2 0 ["c.npy", "a.npy"] []⟩

/-- An environment in which every `scipy.io.savemat` call fails after
having created a truncated destination file. -/
def envC2x : Env :=
  ⟨DirListing.ok [("a.npy", true)], fun _ => Except.ok ⟨[1, 2]⟩,
   fun _ => SavematOutcome.failTrunc "No space left on device"⟩

/-- C2 counterexample: when the underlying writer fails midway, the batch
finishes with EncodeFailed for the file, but the truncated destination
artifact `out/a.mat` is still present afterwards — nothing removes it. -/
theorem encode_failure_truncated_artifact_remains :
    fsRead (process envC2x "in" "out" []).fs "out/a.mat" = some MatFile.truncated ∧
    (process envC2x "in" "out" []).outcomes = [("a.npy", ConversionResult.EncodeFailed)] := by
  decide

/-- C2 (amended): an encode failure is caught and logged inside
`save_data_as_mat` (nothing is raised), the file ends in EncodeFailed and
the loop advances to the next file — but no removal of the destination
file is performed, so a truncated artifact left by the writer remains. -/
theorem encode_failure_logged_no_cleanup :
    (∀ (env : Env) (data : PyValue) (path : String) (fs : FS),
       (save_data_as_mat env data path fs).raised = none) ∧
    (∀ (env : Env) (a : NpArray) (m path : String) (fs : FS),
       env.savemat path = SavematOutcome.failTrunc m →
       (save_data_as_mat env (PyValue.ndarray a) path fs).fs
         = fsWrite fs path MatFile.truncated ∧
       ("Error when saving as .mat file: " ++ m)
         ∈ (save_data_as_mat env (PyValue.ndarray a) path fs).logs) ∧
    (∀ (env : Env) (pIn pOut : String) (tot idx : Nat) (f : String) (rest : List String)
       (fs : FS) (a : NpArray) (m : String),
       validate_file_type f ".npy" = true →
       env.npLoad (posixJoin pIn f) = Except.ok a →
       env.savemat (posixJoin pOut ((pySplitext f).1 ++ ".mat")) = SavematOutcome.failTrunc m →
       (processLoop env pIn pOut tot idx (f :: rest) fs).outcomes
         = (f, ConversionResult.EncodeFailed)
             :: (processLoop env pIn pOut tot (idx + 1) rest
                   (fsWrite fs (posixJoin pOut ((pySplitext f).1 ++ ".mat"))
                     MatFile.truncated)).outcomes) := by
  refine ⟨?_, ?_, ?_⟩
  · intro env data path fs
    cases data with
    | ndarray a => cases h : env.savemat path <;> simp [save_data_as_mat, h]
    | pyNone => simp [save_data_as_mat]
  · intro env a m path fs h
    simp [save_data_as_mat, h]
  · intro env pIn pOut tot idx f rest fs a m hv hload hsave
    simp [processLoop, processFile, hv, gen_filepaths, NumpyFileLoader_load_file, hload,
          save_data_as_mat, hsave]

/-- C2 witness: a concrete failing save keeps the truncated artifact on
disk while the one-file batch still records EncodeFailed and terminates. -/
theorem encode_failure_logged_no_cleanup_witness :
    (save_data_as_mat envC2x (PyValue.ndarray ⟨[1, 2]⟩) "out/a.mat" []).fs
      = fsWrite [] "out/a.mat" MatFile.truncated ∧
    (processLoop envC2x "in" "out" 1 0 ["a.npy"] []).outcomes
      = [("a.npy", ConversionResult.EncodeFailed)] := by
  refine ⟨(encode_failure_logged_no_cleanup.2.1 envC2x ⟨[1, 2]⟩ "No space left on device"
             "out/a.mat" [] (by decide)).1, ?_⟩
  have h := encode_failure_logged_no_cleanup.2.2 envC2x "in" "out" 1 0 "a.npy" [] []
      ⟨[1, 2]⟩ "No space left on device" (by decide) rfl rfl
  simpa [processLoop] using h

/-- A one-file batch that converts successfully. -/
def envC3a : Env :=
  ⟨DirListing.ok [("a.npy", true)], fun _ => Except.ok ⟨[1]⟩, fun _ => SavematOutcome.ok⟩

/-- A batch whose source directory cannot be listed. -/
def envC3b : Env :=
  ⟨DirListing.err "No such file or directory", fun _ => Except.ok ⟨[1]⟩,
   fun _ => SavematOutcome.ok⟩

/-- C3 counterexample: two batches with different per-file outcome
sequences return the very same value (`None`), so the entry point's
return value carries neither aggregate counts nor the per-file
ConversionResult sequence. -/
theorem process_return_carries_no_summary :
    (process envC3a "in" "out" []).ret = (process envC3b "in" "out" []).ret ∧
    (process envC3a "in" "out" []).outcomes ≠ (process envC3b "in" "out" []).outcomes := by
  exact ⟨rfl, by decide⟩

/-- C3 (amended): the batch entry point `process` returns `None`; the
per-file outcomes and the closing summary lines (including the
destination directory) are conveyed only through the log stream, which
always ends with the three outro messages. -/
theorem process_returns_none_logs_only :
    ∀ (env : Env) (pIn pOut : String) (fs : FS),
      (process env pIn pOut fs).ret = () ∧
      ∃ pre, (process env pIn pOut fs).logs
        = pre ++ ["All files processed!", "Files saved to: " ++ pOut,
                  "Feel free to close the application"] := by
  intro env pIn pOut fs
  exact ⟨rfl, _, rfl⟩

/-- C4: the file-listing operation keeps exactly the regular files of the
directory (a name is returned iff it is an entry tagged as a regular
file), returns the empty list on any access error instead of raising, and
a batch over an unlistable directory still terminates cleanly with zero
processed files and an untouched destination. -/
theorem listing_regular_files_errors_empty :
    (∀ (path : String) (entries : List (String × Bool)) (n : String),
       n ∈ (filenames_in_dir (DirListing.ok entries) path).1 ↔ (n, true) ∈ entries) ∧
    (∀ (path m : String), (filenames_in_dir (DirListing.err m) path).1 = []) ∧
    (∀ (env : Env) (pIn pOut : String) (fs : FS) (m : String),
       env.listing = DirListing.err m →
       (process env pIn pOut fs).outcomes = [] ∧ (process env pIn pOut fs).fs = fs) := by
  refine ⟨?_, ?_, ?_⟩
  · intro path entries n
    simp only [filenames_in_dir, List.mem_map, List.mem_filter]
    constructor
    · rintro ⟨⟨a, b⟩, ⟨hmem, hb⟩, heq⟩
      simp only at hb heq
      subst heq
      cases b with
      | true => exact hmem
      | false => cases hb
    · intro h
      exact ⟨(n, true), ⟨h, rfl⟩, rfl⟩
  · intro path m; rfl
  · intro env pIn pOut fs m h
    constructor <;> simp [process, h, filenames_in_dir, processLoop]

/-- A directory with one regular file and one subdirectory. -/
def entriesC4 : List (String × Bool) := [("a.npy", true), ("subdir", false)]

/-- A batch whose source directory is unreadable. -/
def envC4 : Env :=
  ⟨DirListing.err "Permission denied", fun _ => Except.ok ⟨[]⟩, fun _ => SavematOutcome.ok⟩

/-- C4 witness: the regular file is listed, an unreadable directory
yields the empty list, and the batch over it ends with no outcomes. -/
theorem listing_regular_files_errors_empty_witness :
    "a.npy" ∈ (filenames_in_dir (DirListing.ok entriesC4) "in").1 ∧
    (filenames_in_dir (DirListing.err "Permission denied") "in").1 = [] ∧
    (process envC4 "in" "out" []).outcomes = [] := by
  refine ⟨(listing_regular_files_errors_empty.1 "in" entriesC4 "a.npy").mpr (by decide),
          listing_regular_files_errors_empty.2.1 "in" "Permission denied",
          (listing_regular_files_errors_empty.2.2 envC4 "in" "out" [] "Permission denied"
             rfl).1⟩

/-- An environment whose destination directory is not writable: every
`scipy.io.savemat` call fails, leaving the destination untouched. -/
def envC5x : Env :=
  ⟨DirListing.ok [], fun _ => Except.ok ⟨[]⟩,
   fun _ => SavematOutcome.failClean "Permission denied"⟩

/-- C5 counterexample: with an unwritable destination the underlying
savemat call fails, yet `save_data_as_mat` raises nothing and writes
nothing — the failure is visible only in the log, not as an error
outcome to the caller. -/
theorem encode_failure_not_surfaced :
    envC5x.savemat "out/a.mat" = SavematOutcome.failClean "Permission denied" ∧
    (save_data_as_mat envC5x (PyValue.ndarray ⟨[1]⟩) "out/a.mat" []).raised = none ∧
    (save_data_as_mat envC5x (PyValue.ndarray ⟨[1]⟩) "out/a.mat" []).fs = [] := by
  decide

/-- C5 (amended): the package encoder `save_data_as_mat` never surfaces
an error outcome — every failure of the underlying writer is caught and
only logged — whereas the standalone `save_mat_file` raises exactly when
the underlying savemat call fails. -/
theorem encode_error_swallowed_utils_raised_app :
    (∀ (env : Env) (data : PyValue) (path : String) (fs : FS),
       (save_data_as_mat env data path fs).raised = none) ∧
    (∀ (env : Env) (data : PyValue) (path : String) (fs : FS),
       (save_mat_file env data path fs).2 = none ↔ env.savemat path = SavematOutcome.ok) ∧
    (∀ (env : Env) (a : NpArray) (m path : String) (fs : FS),
       env.savemat path = SavematOutcome.failClean m →
       ("Error when saving as .mat file: " ++ m)
         ∈ (save_data_as_mat env (PyValue.ndarray a) path fs).logs) := by
  refine ⟨?_, ?_, ?_⟩
  · intro env data path fs
    cases data with
    | ndarray a => cases h : env.savemat path <;> simp [save_data_as_mat, h]
    | pyNone => simp [save_data_as_mat]
  · intro env data path fs
    cases h : env.savemat path <;> simp [save_mat_file, h]
  · intro env a m path fs h
    simp [save_data_as_mat, h]

/-- An environment in which saving succeeds everywhere. -/
def envC5ok : Env :=
  ⟨DirListing.ok [], fun _ => Except.ok ⟨[]⟩, fun _ => SavematOutcome.ok⟩

/-- C5 witness: a successful save raises nothing in the standalone
encoder, and a concrete clean failure is logged by the package encoder. -/
theorem encode_error_swallowed_utils_raised_app_witness :
    (save_mat_file envC5ok (PyValue.ndarray ⟨[3]⟩) "out/a.mat" []).2 = none ∧
    ("Error when saving as .mat file: Permission denied")
      ∈ (save_data_as_mat envC5x (PyValue.ndarray ⟨[1]⟩) "out/a.mat" []).logs :=
  ⟨(encode_error_swallowed_utils_raised_app.2.1 envC5ok (PyValue.ndarray ⟨[3]⟩)
      "out/a.mat" []).mpr rfl,
   encode_error_swallowed_utils_raised_app.2.2 envC5x ⟨[1]⟩ "Permission denied"
      "out/a.mat" [] rfl⟩

/-- C6: a successful encode writes, at the destination path, a container
holding exactly one named entry, under the fixed key "data", whose value
is the full decoded array — in both implementations, and with no further
entries added by this code. -/
theorem saved_container_single_data_entry :
    ∀ (env : Env) (a : NpArray) (data : PyValue) (path : String) (fs : FS),
      env.savemat path = SavematOutcome.ok →
      fsRead (save_data_as_mat env (PyValue.ndarray a) path fs).fs path
        = some (MatFile.full [("data", PyValue.ndarray a)]) ∧
      fsRead (save_mat_file env data path fs).1 path
        = some (MatFile.full [("data", data)]) := by
  intro env a data path fs h
  constructor <;> simp [save_data_as_mat, save_mat_file, h, fsRead, fsWrite, List.find?]

/-- A one-file batch whose array is `[4, 5]` and whose saves succeed. -/
def envC6 : Env :=
  ⟨DirListing.ok [("a.npy", true)], fun _ => Except.ok ⟨[4, 5]⟩, fun _ => SavematOutcome.ok⟩

/-- C6 witness: a concrete successful save leaves a single-entry
container keyed "data" at the destination, in both implementations. -/
theorem saved_container_single_data_entry_witness :
    fsRead (save_data_as_mat envC6 (PyValue.ndarray ⟨[4, 5]⟩) "out/a.mat" []).fs "out/a.mat"
      = some (MatFile.full [("data", PyValue.ndarray ⟨[4, 5]⟩)]) ∧
    fsRead (save_mat_file envC6 (PyValue.ndarray ⟨[4, 5]⟩) "out/a.mat" []).1 "out/a.mat"
      = some (MatFile.full [("data", PyValue.ndarray ⟨[4, 5]⟩)]) :=
  saved_container_single_data_entry envC6 ⟨[4, 5]⟩ (PyValue.ndarray ⟨[4, 5]⟩) "out/a.mat" [] rfl

/-- C7: the derived destination path is the destination directory joined
with the source filename's stem (its extension stripped, CPython
`splitext` semantics) plus the canonical extension ".mat"; both
implementations derive the same path. -/
theorem destination_path_derivation :
    ∀ (npy_dir f mat_dir : String),
      (gen_filepaths npy_dir f mat_dir).2 = posixJoin mat_dir ((pySplitext f).1 ++ ".mat") ∧
      npy2mat_dest mat_dir f = (gen_filepaths npy_dir f mat_dir).2 ∧
      (gen_filepaths "in" "a.npy" "out").2 = "out/a.mat" ∧
      npy2mat_dest "out" "b.txt" = "out/b.mat" := by
  intro npy_dir f mat_dir
  exact ⟨rfl, rfl, by decide, by decide⟩

/-- C8: a listed file whose extension does not match ".npy" ends in
SkippedWrongType, leaves the destination filesystem untouched, its
processing is independent of the whole environment (so neither decoding
nor encoding is attempted), and the loop advances to the next file. -/
theorem wrong_type_skipped :
    ∀ (env env2 : Env) (pIn pOut : String) (tot idx : Nat) (f : String)
      (rest : List String) (fs : FS),
      validate_file_type f ".npy" = false →
      (processFile env pIn pOut f fs).result = ConversionResult.SkippedWrongType ∧
      (processFile env pIn pOut f fs).fs = fs ∧
      processFile env pIn pOut f fs = processFile env2 pIn pOut f fs ∧
      (processLoop env pIn pOut tot idx (f :: rest) fs).outcomes
        = (f, ConversionResult.SkippedWrongType)
            :: (processLoop env pIn pOut tot (idx + 1) rest fs).outcomes := by
  intro env env2 pIn pOut tot idx f rest fs hv
  refine ⟨?_, ?_, ?_, ?_⟩ <;> simp [processLoop, processFile, hv]

/-- A batch containing a `.txt` file. -/
def envC8 : Env :=
  ⟨DirListing.ok [("b.txt", true)], fun _ => Except.ok ⟨[]⟩, fun _ => SavematOutcome.ok⟩

/-- C8 witness: the `.txt` file is skipped as wrong-typed and produces no
destination artifact. -/
theorem wrong_type_skipped_witness :
    (processFile envC8 "in" "out" "b.txt" []).result = ConversionResult.SkippedWrongType ∧
    (processFile envC8 "in" "out" "b.txt" []).fs = [] := by
  have h := wrong_type_skipped envC8 envC8 "in" "out" 1 0 "b.txt" [] [] (by decide)
  exact ⟨h.1, h.2.1⟩

/-- C9: type validation accepts a filename exactly when the expected
extension is, character for character, a suffix of it — a case-sensitive
comparison, so an extension differing only in letter case is rejected;
the standalone single-name check agrees with the package one. -/
theorem validate_suffix_case_sensitive :
    (∀ f t : String, validate_file_type f t = true ↔ ∃ p, p ++ t.data = f.data) ∧
    (∀ f t : String, check_file_type_str f t = validate_file_type f t) ∧
    validate_file_type "a.NPY" ".npy" = false ∧ validate_file_type "a.npy" ".npy" = true := by
  refine ⟨?_, fun f t => rfl, by decide, by decide⟩
  intro f t
  simp only [validate_file_type, pyEndswith, List.isSuffixOf_iff_suffix]
  exact Iff.rfl

/-- C9 witness: a concrete well-formed name validates, via the suffix
characterisation. -/
theorem validate_suffix_case_sensitive_witness :
    validate_file_type "abc.npy" ".npy" = true :=
  (validate_suffix_case_sensitive.1 "abc.npy" ".npy").mpr ⟨"abc".data, by decide⟩

/-- C10: the list overload of `check_file_type` returns true exactly when
the single-name check accepts every member — the conjunction of the
per-member results — and in particular it returns true on the empty
list. -/
theorem check_file_type_list_all_members :
    ∀ (fls : List String) (t : String),
      check_file_type_list fls t = fls.all (fun fn => check_file_type_str fn t) ∧
      check_file_type_list [] t = true := by
  intro fls t
  refine ⟨?_, rfl⟩
  induction fls with
  | nil => rfl
  | cons f rest ih =>
      simp only [check_file_type_list, check_file_type_str, List.all_cons]
      cases h : pyEndswith f t <;> simp [h, ih, check_file_type_str]
